import Mathlib

/-!
Verification of the session lifecycle and file-based request/response protocol
of the agent-in-the-loop repository, shallowly embedded from
`backend/app/services/simple_cline_service.py`, `backend/app/api/routes/cline.py`
and `coderabbit_api.py`.

Python strings are modelled through executable primitives over `List Char`
(`pyContains` for the `in` operator, `pySplit` for `str.split`, `pyStrip` for
`str.strip`, `pyReplace` for `str.replace`, `pyStartsWith` for
`str.startswith`, `pyLen` for `len`), so that every definition evaluates
inside the kernel.
-/

namespace AgentLoop

/-- Prefix test on lists: `listStartsWith pre l` is true iff `pre` is a prefix
of `l`. Implements Python `str.startswith` once lifted to `String`. -/
def listStartsWith (pre l : List Char) : Bool :=
  match pre, l with
  | [], _ => true
  | _ :: _, [] => false
  | p :: ps, x :: xs => p == x && listStartsWith ps xs

/-- Substring containment on lists: Python `needle in hay`. The empty needle is
contained in every string, as in Python. -/
def pyContains (needle hay : List Char) : Bool :=
  match hay with
  | [] => needle.isEmpty
  | _ :: tl => listStartsWith needle hay || pyContains needle tl

/-- Fuel-driven worker for Python `str.split(sep)` with a non-empty separator:
splits on every non-overlapping occurrence, left to right, keeping empty
pieces. The fuel is set to the length of the string by the wrapper, which makes
the fuel-exhausted branch unreachable. -/
def pySplitGo (sep : List Char) : Nat → List Char → List Char → List (List Char)
  | _, cur, [] => [cur.reverse]
  | 0, cur, rest => [cur.reverse ++ rest]
  | fuel + 1, cur, c :: tl =>
    if !sep.isEmpty && listStartsWith sep (c :: tl) then
      cur.reverse :: pySplitGo sep fuel [] (tl.drop (sep.length - 1))
    else pySplitGo sep fuel (c :: cur) tl

/-- Fuel-driven worker for Python `str.replace(old, new)`: replaces every
non-overlapping occurrence of `old`, left to right. -/
def pyReplaceGo (old new : List Char) : Nat → List Char → List Char
  | _, [] => []
  | 0, rest => rest
  | fuel + 1, c :: tl =>
    if !old.isEmpty && listStartsWith old (c :: tl) then
      new ++ pyReplaceGo old new fuel (tl.drop (old.length - 1))
    else c :: pyReplaceGo old new fuel tl

/-- Whitespace characters removed by Python `str.strip()`. -/
def isPySpace (c : Char) : Bool :=
  c == ' ' || c == '\t' || c == '\n' || c == '\r' || c == '\x0b' || c == '\x0c'

/-- Python `str.strip()` on a list of characters. -/
def pyStripList (s : List Char) : List Char :=
  ((s.dropWhile isPySpace).reverse.dropWhile isPySpace).reverse

/-- Python `needle in hay` on `String`. -/
def pyIn (needle hay : String) : Bool :=
  pyContains needle.data hay.data

/-- Python `s.split(sep)` on `String` (callers only use non-empty separators). -/
def pySplit (s sep : String) : List String :=
  (pySplitGo sep.data s.data.length [] s.data).map String.mk

/-- Python `s.strip()` on `String`. -/
def pyStrip (s : String) : String :=
  String.mk (pyStripList s.data)

/-- Python `s.replace(old, new)` on `String`. -/
def pyReplace (s old new : String) : String :=
  String.mk (pyReplaceGo old.data new.data s.data.length s.data)

/-- Python `s.startswith(pre)` on `String`. -/
def pyStartsWith (s pre : String) : Bool :=
  listStartsWith pre.data s.data

/-- Python `len(s)` on `String` (counts code points, as Python does). -/
def pyLen (s : String) : Nat :=
  s.data.length

/-!
## File-channel response wait

`SimpleClineService._wait_for_response` polls the session's output file,
scanning the file content from the last line backwards for a JSON record that
has a `response` or `error` field and whose `messageId` (defaulting to 0 when
absent) is strictly greater than the session's `_last_response_id`
(`getattr(session, '_last_response_id', 0)`, i.e. 0 before the first reply).
`json.loads` is external library code; the embedding passes it in as an oracle
`jl : String → Option RespRecord` mapping a line to its parse result (`none`
models `json.JSONDecodeError`).
-/

/-- A parsed JSON response record: the three keys `_wait_for_response` and
`send_message` read from `json.loads`'s result, each `Option` because the key
may be absent from the object (`"response" in response_data`,
`"error" in response_data`, `response_data.get("messageId", 0)`,
`response.get("response", "")`, `response.get("messageId")`). -/
structure RespRecord where
  response : Option String
  error : Option String
  messageId : Option Int
deriving DecidableEq, Repr

/-- The inner `for line in reversed(lines)` loop of `_wait_for_response`
(lines 363-377 of `simple_cline_service.py`), applied to the already reversed
line list: strip the line; skip it unless it is non-empty, differs from
`"SESSION_READY"` and starts with `"\x7b"`; skip lines `json.loads` rejects
(`except json.JSONDecodeError: continue`); accept the first record that has a
`response` or `error` key and `messageId` (default 0) strictly greater than
`lastId`. -/
def scanLines (jl : String → Option RespRecord) :
    List String → Int → Option RespRecord
  | [], _ => none
  | line :: rest, lastId =>
    let l := pyStrip line
    if l ≠ "" && l ≠ "SESSION_READY" && pyStartsWith l "\x7b" then
      match jl l with
      | some r =>
        if r.response.isSome || r.error.isSome then
          if r.messageId.getD 0 > lastId then some r
          else scanLines jl rest lastId
        else scanLines jl rest lastId
      | none => scanLines jl rest lastId
    else scanLines jl rest lastId

/-- One poll iteration of `_wait_for_response` over the output file's current
content: `content = f.read().strip()`; `if content:` then scan
`content.split('\n')` from the most recent line backwards. -/
def scanContent (jl : String → Option RespRecord) (content : String)
    (lastId : Int) : Option RespRecord :=
  let c := pyStrip content
  if c ≠ "" then scanLines jl (pySplit c "\n").reverse lastId else none

/-- The polling loop of `_wait_for_response`: `snapshots` is the sequence of
output-file contents observed by successive poll cycles before the 300 s
deadline (an exhausted list models the deadline expiring, upon which the
Python code raises `TimeoutError`). `last_response_id` is read once before the
loop and only written on acceptance, where it is set to the accepted record's
`messageId` (default 0); the result carries that updated value. -/
def waitForResponse (jl : String → Option RespRecord) :
    List String → Int → Option (RespRecord × Int)
  | [], _ => none
  | snap :: rest, lastId =>
    match scanContent jl snap lastId with
    | some r => some (r, r.messageId.getD 0)
    | none => waitForResponse jl rest lastId

/-!
## Session registry and service state

`PersistentClineSession` objects live in the dict `SimpleClineService.sessions`
(insertion-ordered, keyed by session id). File-system state owned by a session
is folded into the session record: `inputFileContent` is the current content of
the session's input file (every write is a full overwrite). The dynamic
attribute `_last_response_id` is modelled by the field `lastResponseId`; Python
reads it with `getattr(session, '_last_response_id', 0)`, so a freshly created
session carries the value 0.
-/

/-- Python exception classes relevant to the service and route layers. -/
inductive PyExc
  | valueError
  | timeoutError
  | attributeError
deriving DecidableEq, Repr

/-- Handle to the process started by `asyncio.create_subprocess_exec` in
`create_session` (an `asyncio.subprocess.Process`). -/
structure AsyncioProcess where
  pid : Nat
  returncode : Option Int
deriving DecidableEq, Repr

/-- The Python attribute call `session.cli_process.poll()` in `stop_session`
(line 411 of `simple_cline_service.py`). `create_session` stores the result of
`asyncio.create_subprocess_exec`, an `asyncio.subprocess.Process`, whose API
has `returncode`, `terminate`, `kill` and `wait` but no `poll` method (`poll`
belongs to `subprocess.Popen`, the type the field is merely annotated with), so
this attribute lookup raises `AttributeError` at runtime. -/
def AsyncioProcess.pollCall (_p : AsyncioProcess) : Except PyExc (Option Int) :=
  .error .attributeError

/-- One entry of a session's `messages` list. `metadata` is `none` for user
messages (no `metadata` key) and `some mid` for agent messages, where `mid` is
`response.get("messageId")` (itself optional). -/
structure SessionMessage where
  id : String
  type : String
  content : String
  timestamp : String
  metadata : Option (Option Int)
deriving DecidableEq, Repr

/-- A `PersistentClineSession` together with the state of its input file. -/
structure Session where
  session_id : String
  workspace_path : String
  status : String
  messages : List SessionMessage
  inputFileContent : String
  lastResponseId : Int
  cli_process : Option AsyncioProcess
deriving DecidableEq, Repr

/-- The service's `self.sessions` dict as an insertion-ordered association
list. -/
structure ServiceState where
  sessions : List (String × Session)
deriving DecidableEq, Repr

/-- Dict lookup `self.sessions[session_id]` / `session_id in self.sessions`. -/
def lookupSession (svc : ServiceState) (sid : String) : Option Session :=
  (svc.sessions.find? (fun p => p.1 == sid)).map (fun p => p.2)

/-- In-place mutation of the session object stored under `sid` (Python
sessions are mutated through the object held by the dict). -/
def updateSession (svc : ServiceState) (sid : String) (s : Session) :
    ServiceState :=
  ⟨svc.sessions.map (fun p => if p.1 == sid then (sid, s) else p)⟩

/-- Dict deletion `del self.sessions[session_id]`. -/
def removeSession (svc : ServiceState) (sid : String) : ServiceState :=
  ⟨svc.sessions.filter (fun p => p.1 ≠ sid)⟩

/-- Dict insertion of a fresh key `self.sessions[session_id] = session`. -/
def insertSession (svc : ServiceState) (sid : String) (s : Session) :
    ServiceState :=
  ⟨svc.sessions ++ [(sid, s)]⟩

/-- `SimpleClineService.get_session`: plain dict lookup. -/
def get_session (svc : ServiceState) (sid : String) : Option Session :=
  lookupSession svc sid

/-- `SimpleClineService.list_sessions`: `list(self.sessions.values())`. -/
def list_sessions (svc : ServiceState) : List Session :=
  svc.sessions.map (fun p => p.2)

/-!
## send_message
-/

/-- The exceptions `send_message` can raise: the two `ValueError`s of its
guard clauses and the `TimeoutError` propagated from `_wait_for_response`. -/
inductive SendError
  | sessionNotFound (msg : String)
  | sessionNotReady (msg : String)
  | timeoutNoResponse (msg : String)
deriving DecidableEq, Repr

/-- The Python exception class of each `send_message` failure: the guard
clauses raise `ValueError(...)`, the response wait raises `TimeoutError(...)`. -/
def SendError.pyClass : SendError → PyExc
  | .sessionNotFound _ => .valueError
  | .sessionNotReady _ => .valueError
  | .timeoutNoResponse _ => .timeoutError

/-- The dict `send_message` returns on success. -/
structure SendResult where
  session_id : String
  message_id : String
  response : String
  status : String
deriving DecidableEq, Repr

/-- `SimpleClineService.send_message` (lines 294-347 of
`simple_cline_service.py`). Non-deterministic externals are passed in:
`userMsgId`/`agentMsgId` are the two `uuid.uuid4()` draws, `ts1`/`ts2` the two
`datetime.utcnow().isoformat()` calls, `jl` the `json.loads` oracle, and
`snapshots` the output-file contents seen by the response-wait poll cycles.
Steps, in source order: raise `ValueError` if the id is not in the dict; raise
`ValueError` if the status is not `"ready"`; then, inside `try`, set status to
`"processing"`, append the user message, overwrite the input file with the
message text, and wait for a response. On timeout the `except` block sets the
status to `"error"` and re-raises with the earlier mutations kept. On a match,
append the agent message (content `response.get("response", "")`, metadata
`response.get("messageId")`), set status back to `"ready"` and return the
result dict. -/
def send_message (svc : ServiceState) (sid msg : String)
    (userMsgId ts1 agentMsgId ts2 : String)
    (jl : String → Option RespRecord) (snapshots : List String) :
    Except SendError SendResult × ServiceState :=
  match lookupSession svc sid with
  | none =>
    (.error (.sessionNotFound ("Session " ++ sid ++ " not found")), svc)
  | some session =>
    if session.status ≠ "ready" then
      (.error (.sessionNotReady
        ("Session " ++ sid ++ " is not ready (status: " ++ session.status ++ ")")),
       svc)
    else
      let userMessage : SessionMessage :=
        ⟨userMsgId, "user", msg, ts1, none⟩
      let s1 : Session :=
        { session with
            status := "processing",
            messages := session.messages ++ [userMessage],
            inputFileContent := msg }
      match waitForResponse jl snapshots s1.lastResponseId with
      | none =>
        (.error (.timeoutNoResponse "No response received within 300 seconds"),
         updateSession svc sid { s1 with status := "error" })
      | some (r, newLast) =>
        let agentMessage : SessionMessage :=
          ⟨agentMsgId, "agent", r.response.getD "", ts2, some r.messageId⟩
        let s2 : Session :=
          { s1 with
              lastResponseId := newLast,
              messages := s1.messages ++ [agentMessage],
              status := "ready" }
        (.ok ⟨sid, agentMsgId, r.response.getD "", "success"⟩,
         updateSession svc sid s2)

/-!
## Readiness handshake wait and create_session
-/

/-- One iteration of the polling loop in
`_wait_for_session_ready_with_logs` (lines 244-289): `isLogCycle` records
whether `time.time() - last_log_time >= check_interval` held (the periodic
10-second branch — the only place the process's `returncode` is inspected),
`returncode` is the process's exit status at that moment (`none` while still
running), and `content` the output file's content (`none` when the file does
not exist or cannot be read). -/
structure PollObs where
  isLogCycle : Bool
  returncode : Option Int
  content : Option String
deriving DecidableEq, Repr

/-- The readiness test applied to the output file's content (line 283):
`content = f.read().strip()` then
`if "SESSION_READY" in content or "READY" in content`. -/
def readyCheck (c : String) : Bool :=
  pyIn "SESSION_READY" (pyStrip c) || pyIn "READY" (pyStrip c)

/-- `_wait_for_session_ready_with_logs` (lines 234-292). The observation list
holds the loop iterations that fit inside the 300-second deadline; an
exhausted list models `time.time() - start_time >= max_wait`, after which the
`TimeoutError` on line 292 is raised. Within an iteration, the periodic-log
branch runs first: when it sees a non-`None` `returncode` it logs the captured
`procStdout`/`procStderr` (from `communicate()`) and `break`s out of the loop,
reaching the same `TimeoutError` raise — the captured output is logged only
and does not appear in the raised error, whose message is fixed. Otherwise the
readiness check runs on the file content and returns on success. -/
def waitForReady (sid procStdout procStderr : String) :
    List PollObs → Except String Unit
  | [] =>
    .error ("Session " ++ sid ++ " failed to become ready within 300 seconds")
  | o :: rest =>
    if o.isLogCycle && o.returncode.isSome then
      .error ("Session " ++ sid ++ " failed to become ready within 300 seconds")
    else
      match o.content with
      | some c =>
        if readyCheck c then .ok ()
        else waitForReady sid procStdout procStderr rest
      | none => waitForReady sid procStdout procStderr rest

/-- `SimpleClineService.create_session` (lines 48-109). The fresh
`uuid.uuid4()` is the parameter `sid`, the spawned process handle is `proc`,
and the readiness poll observations are `obs`. The session object is built
with `status="initializing"`, the channel files are provisioned, the process
is started, and the readiness wait runs; only after it returns does the code
set `status="ready"` and insert the session into `self.sessions`. When the
wait raises, the `except` block sets `session.status = "error"` and re-raises:
the insertion on line 100 is never reached, so the registry is unchanged. -/
def create_session (svc : ServiceState) (workspace_path : Option String)
    (sid : String) (proc : AsyncioProcess) (procStdout procStderr : String)
    (obs : List PollObs) : Except String Session × ServiceState :=
  let ws := workspace_path.getD "/home/newton/swe_bench_reproducer"
  let session : Session :=
    { session_id := sid, workspace_path := ws, status := "initializing",
      messages := [], inputFileContent := "", lastResponseId := 0,
      cli_process := some proc }
  match waitForReady sid procStdout procStderr obs with
  | .ok _ =>
    let ready := { session with status := "ready" }
    (.ok ready, insertSession svc sid ready)
  | .error m => (.error m, svc)

/-!
## stop_session
-/

/-- `SimpleClineService.stop_session` (lines 394-433). Unknown ids return
`False` at once. For a registered session the `try` block first overwrites the
input file with `"STOP_SESSION"`; if a process handle is present it calls
`terminate()` (a no-op signal for an already-exited child), sleeps, then
evaluates `session.cli_process.poll()` — which raises `AttributeError`, see
`AsyncioProcess.pollCall` — so the blanket `except Exception` logs and returns
`False`, with the session still registered (only the input-file write has
happened). Only when no process handle exists does control reach the cleanup,
`session.status = "stopped"`, `del self.sessions[session_id]` and
`return True`. -/
def stop_session (svc : ServiceState) (sid : String) : Bool × ServiceState :=
  match lookupSession svc sid with
  | none => (false, svc)
  | some session =>
    let s1 := { session with inputFileContent := "STOP_SESSION" }
    match s1.cli_process with
    | some p =>
      match p.pollCall with
      | .error _ => (false, updateSession svc sid s1)
      | .ok _ =>
        (true, removeSession (updateSession svc sid { s1 with status := "stopped" }) sid)
    | none =>
      (true, removeSession (updateSession svc sid { s1 with status := "stopped" }) sid)

/-!
## API route layer (`backend/app/api/routes/cline.py`)
-/

/-- The HTTP status code produced by the `POST /sessions/{id}/messages`
handler (lines 108-135 of `cline.py`): 200 with a `MessageResponse` on
success, 404 from `except ValueError`, and 500 from the blanket
`except Exception`. -/
def send_message_route (svc : ServiceState) (sid msg : String)
    (userMsgId ts1 agentMsgId ts2 : String)
    (jl : String → Option RespRecord) (snapshots : List String) : Nat :=
  match (send_message svc sid msg userMsgId ts1 agentMsgId ts2 jl snapshots).1 with
  | .ok _ => 200
  | .error e => if e.pyClass == .valueError then 404 else 500

/-!
## Review-output parsing (`coderabbit_api.py`)
-/

/-- One comment dict produced by `parse_coderabbit_output`. -/
structure RabbitComment where
  text : String
  user : String
  range : String
  filePath : String
  timestamp : String
deriving DecidableEq, Repr

/-- The body of the `for line in lines` loop of `parse_coderabbit_output`
(lines 124-147 of `coderabbit_api.py`). A line containing the marker
`"📝 Extracted:"` has its text extracted via
`line.split('📝 Extracted: ')[1]` (an absent index-1 piece raises
`IndexError`, caught and skipped), `'...'` occurrences removed and the result
stripped; it is appended only when non-empty and longer than 10 characters.
The `elif` summary branch (`"📊 Review completed with" in line and
"comments" in line`) only parses the count for a log statement — it never
touches the comment list, so it is the identity here. -/
def parseRabbitLine (ts : String) (acc : List RabbitComment) (line : String) :
    List RabbitComment :=
  if pyIn "📝 Extracted:" line then
    match (pySplit line "📝 Extracted: ").get? 1 with
    | some piece =>
      let comment_text := pyStrip (pyReplace piece "..." "")
      if comment_text ≠ "" && pyLen comment_text > 10 then
        acc ++ [⟨comment_text, "CodeRabbit", "Unknown", "Unknown", ts⟩]
      else acc
    | none => acc
  else if pyIn "📊 Review completed with" line && pyIn "comments" line then
    acc
  else acc

/-- The fixed text of the placeholder comment appended when no comment was
parsed from the logs (lines 150-157). -/
def placeholderText : String :=
  "CodeRabbit review completed successfully. Check the output logs for detailed analysis."

/-- `parse_coderabbit_output` (lines 117-159): split the raw CLI output on
newlines, fold the per-line extraction over the lines, and if no comments were
collected return the single placeholder comment. `current_timestamp`
(`time.strftime(...)`) is passed in. -/
def parse_coderabbit_output (output : String) (current_timestamp : String) :
    List RabbitComment :=
  let lines := pySplit output "\n"
  let comments := lines.foldl (parseRabbitLine current_timestamp) []
  if comments.isEmpty then
    [⟨placeholderText, "CodeRabbit", "Overall", "Workspace", current_timestamp⟩]
  else comments

/-!
## Concrete fixtures used to evaluate the model
-/

/-- A concrete `json.loads` oracle: the success reply line parses to a record
with `response` and `messageId`, the error line to a record with `error` and
`messageId`; every other line fails to parse. -/
def jlT : String → Option RespRecord := fun l =>
  if l = "\x7b\"success\": true, \"messageId\": 1, \"response\": \"Hello from agent\"\x7d" then
    some { response := some "Hello from agent", error := none, messageId := some 1 }
  else if l = "\x7b\"success\": false, \"error\": \"boom\", \"messageId\": 1\x7d" then
    some { response := none, error := some "boom", messageId := some 1 }
  else none

/-- One output-file snapshot holding the readiness marker and one success
reply. -/
def snapT : List String :=
  ["SESSION_READY\n\x7b\"success\": true, \"messageId\": 1, \"response\": \"Hello from agent\"\x7d"]

/-- One output-file snapshot holding the readiness marker and one error
reply. -/
def snapErr : List String :=
  ["SESSION_READY\n\x7b\"success\": false, \"error\": \"boom\", \"messageId\": 1\x7d"]

/-- A ready session as produced by `create_session`, with a live process. -/
def sessReady : Session :=
  { session_id := "s1", workspace_path := "/w", status := "ready", messages := [],
    inputFileContent := "", lastResponseId := 0,
    cli_process := some { pid := 7, returncode := none } }

/-- A registry holding the one ready session under its id. -/
def svcT : ServiceState := ⟨[("s1", sessReady)]⟩

/-- The same registry with the session in `processing` state. -/
def svcProcessing : ServiceState := ⟨[("s1", { sessReady with status := "processing" })]⟩

/-- A poll observation on which the readiness wait's periodic branch detects a
process exit and breaks out of the loop. -/
def obsAborts (o : PollObs) : Bool :=
  o.isLogCycle && o.returncode.isSome

/-- A poll observation whose file content passes the readiness check. -/
def obsReady (o : PollObs) : Bool :=
  (o.content.map readyCheck).getD false

/-- Review-CLI output with two marker lines whose extracted texts are 10
characters or shorter and a summary line claiming a count of 2. -/
def rabbitShortOutput : String :=
  "📝 Extracted: short\n📝 Extracted: tiny\n📊 Review completed with 2 comments"

/-- Specification-side definition of the comment a single review-output line
contributes, following the amended C9 wording: `some` comment exactly when the
line contains the extracted-comment marker and the text after
`"📝 Extracted: "`, with every `...` removed and surrounding whitespace
stripped, is non-empty and longer than 10 characters; every other line —
summary lines included — contributes nothing. Compared against the source's
`parse_coderabbit_output` by the C9 theorem. -/
def specExtractedComment (ts line : String) : Option RabbitComment :=
  if pyIn "📝 Extracted:" line then
    match (pySplit line "📝 Extracted: ").get? 1 with
    | some piece =>
      let t := pyStrip (pyReplace piece "..." "")
      if t ≠ "" && pyLen t > 10 then
        some ⟨t, "CodeRabbit", "Unknown", "Unknown", ts⟩
      else none
    | none => none
  else none

/-- Specification-side definition of review parsing, following the amended C9
wording: one comment per qualifying marker line, in line order, summary lines
contributing nothing; when no line qualifies, the single placeholder
comment. -/
def specParseReview (output ts : String) : List RabbitComment :=
  let cs := (pySplit output "\n").filterMap (specExtractedComment ts)
  if cs.isEmpty then
    [⟨placeholderText, "CodeRabbit", "Overall", "Workspace", ts⟩]
  else cs

/-!
## Helper lemmas
-/

/-- One step of the source's per-line fold appends exactly the comment the
specification-side extraction assigns to the line (none for marker-free
lines, summary lines included, and for marker lines whose extracted text
fails the length filter). -/
theorem parseRabbitLine_eq (ts : String) (acc : List RabbitComment)
    (line : String) :
    parseRabbitLine ts acc line = acc ++ (specExtractedComment ts line).toList := by
  simp only [parseRabbitLine, specExtractedComment]
  split
  · split
    · split <;> simp
    · simp
  · split <;> simp

/-- The source's fold over the output lines computes the specification-side
per-line extraction of every line, in order. -/
theorem foldl_parseRabbitLine (ts : String) (lines : List String) :
    ∀ (acc : List RabbitComment),
      lines.foldl (parseRabbitLine ts) acc =
        acc ++ lines.filterMap (specExtractedComment ts) := by
  induction lines with
  | nil => intro acc; simp
  | cons l ls ih =>
    intro acc
    rw [List.foldl_cons, parseRabbitLine_eq, ih]
    cases h : specExtractedComment ts l with
    | none => simp [List.filterMap_cons, h]
    | some c => simp [List.filterMap_cons, h]

/-- Every record accepted by the backwards line scan has a `response` or
`error` key and a `messageId` (default 0) strictly above `lastId`. -/
theorem scanLines_sound (jl : String → Option RespRecord) (ls : List String) :
    ∀ (lastId : Int) (r : RespRecord), scanLines jl ls lastId = some r →
      (r.response.isSome || r.error.isSome) = true ∧ lastId < r.messageId.getD 0 := by
  induction ls with
  | nil => intro lastId r h; simp [scanLines] at h
  | cons line rest ih =>
    intro lastId r h
    simp only [scanLines] at h
    split at h
    · split at h
      next r' heq =>
        split at h
        next hkeys =>
          by_cases hnew : r'.messageId.getD 0 > lastId
          · rw [if_pos hnew] at h
            cases h
            exact ⟨hkeys, by omega⟩
          · rw [if_neg hnew] at h
            exact ih lastId r h
        next => exact ih lastId r h
      next => exact ih lastId r h
    · exact ih lastId r h

/-- `scanContent` soundness: lifted from `scanLines_sound`. -/
theorem scanContent_sound (jl : String → Option RespRecord) (content : String)
    (lastId : Int) (r : RespRecord) (h : scanContent jl content lastId = some r) :
    (r.response.isSome || r.error.isSome) = true ∧ lastId < r.messageId.getD 0 := by
  simp only [scanContent] at h
  split at h
  · exact scanLines_sound jl _ lastId r h
  · exact absurd h (by simp)

/-- `waitForResponse` soundness: an accepted record satisfies the acceptance
conditions and the returned value is the updated `_last_response_id`. -/
theorem waitForResponse_sound (jl : String → Option RespRecord)
    (snaps : List String) :
    ∀ (lastId : Int) (r : RespRecord) (n : Int),
      waitForResponse jl snaps lastId = some (r, n) →
      (r.response.isSome || r.error.isSome) = true ∧
        lastId < r.messageId.getD 0 ∧ n = r.messageId.getD 0 := by
  induction snaps with
  | nil => intro lastId r n h; simp [waitForResponse] at h
  | cons snap rest ih =>
    intro lastId r n h
    simp only [waitForResponse] at h
    cases hs : scanContent jl snap lastId with
    | none => rw [hs] at h; exact ih lastId r n h
    | some r' =>
      rw [hs] at h
      have hp := Option.some.inj h
      have h1 : r' = r := congrArg Prod.fst hp
      subst h1
      have h2 : r'.messageId.getD 0 = n := congrArg Prod.snd hp
      subst h2
      rcases scanContent_sound jl snap lastId r' hs with ⟨ha, hb⟩
      exact ⟨ha, hb, rfl⟩

/-- Updating the session stored under a present key makes the lookup return
the new session object. -/
theorem find_map_update (l : List (String × Session)) (sid : String)
    (s s' : Session)
    (h : (l.find? (fun p => p.1 == sid)).map (fun p => p.2) = some s) :
    (((l.map (fun p => if p.1 == sid then (sid, s') else p)).find?
        (fun p => p.1 == sid)).map (fun p => p.2)) = some s' := by
  induction l with
  | nil => simp at h
  | cons hd tl ih =>
    by_cases hc : (hd.1 == sid) = true
    · have he : hd.1 = sid := by simpa using hc
      simp [he]
    · have hne : ¬hd.1 = sid := by simpa using hc
      obtain ⟨a, ha⟩ : ∃ a, List.find? (fun p => p.1 == sid) tl = some (a, s) := by
        simpa [hne] using h
      have h' : (List.find? (fun p => p.1 == sid) tl).map (fun p => p.2) = some s := by
        rw [ha]; rfl
      have hr := ih h'
      simpa [hne] using hr

/-- `lookupSession` after `updateSession` on a present key. -/
theorem lookupSession_updateSession (svc : ServiceState) (sid : String)
    (s s' : Session) (h : lookupSession svc sid = some s) :
    lookupSession (updateSession svc sid s') sid = some s' :=
  find_map_update svc.sessions sid s s' h

/-!
## Claim theorems
-/

/-- C1: the response-polling wait accepts a parsed JSON record only if it has a
`response` or `error` field and a sequence number (`messageId`, default 0)
strictly greater than the last consumed one, and on acceptance the session's
`_last_response_id` is updated to that sequence number — so consumed sequence
numbers are strictly increasing and a stale record is never returned. -/
theorem wait_for_response_consumes_strictly_increasing
    (jl : String → Option RespRecord) (snaps : List String) (lastId : Int)
    (r : RespRecord) (n : Int)
    (h : waitForResponse jl snaps lastId = some (r, n)) :
    (r.response.isSome = true ∨ r.error.isSome = true) ∧
      lastId < r.messageId.getD 0 ∧ n = r.messageId.getD 0 := by
  rcases waitForResponse_sound jl snaps lastId r n h with ⟨h1, h2, h3⟩
  exact ⟨by simpa [Bool.or_eq_true] using h1, h2, h3⟩

/-- Witness for C1 at a concrete snapshot list. -/
theorem wait_for_response_consumes_strictly_increasing_witness :
    ((RespRecord.mk (some "Hello from agent") none (some 1)).response.isSome = true ∨
        (RespRecord.mk (some "Hello from agent") none (some 1)).error.isSome = true) ∧
      (0 : Int) < (RespRecord.mk (some "Hello from agent") none (some 1)).messageId.getD 0 ∧
      (1 : Int) = (RespRecord.mk (some "Hello from agent") none (some 1)).messageId.getD 0 :=
  wait_for_response_consumes_strictly_increasing jlT snapT 0
    (RespRecord.mk (some "Hello from agent") none (some 1)) 1 (by decide)

/-- C2 (counterexample): a matched record that encodes an error — here
`\x7b"success": false, "error": "boom", "messageId": 1\x7d` — is not raised:
`send_message` returns normally with `status = "success"` and an empty
response text. -/
theorem send_message_error_record_counterexample :
    (send_message svcT "s1" "do it" "u1" "t1" "a1" "t2" jlT snapErr).1 =
      .ok ⟨"s1", "a1", "", "success"⟩ := rfl

/-- C2 (amended): a matched record that encodes an error is consumed
immediately and not retried (`_last_response_id` advances to its sequence
number), but it is not raised: `send_message` appends an agent message whose
content is the record's `response` field (empty when absent) and returns a
normal success result. -/
theorem send_message_error_record_returned_as_success
    (svc : ServiceState) (sid msg u t1 a t2 : String) (s : Session)
    (jl : String → Option RespRecord) (snaps : List String)
    (r : RespRecord) (n : Int)
    (hs : lookupSession svc sid = some s) (hready : s.status = "ready")
    (hw : waitForResponse jl snaps s.lastResponseId = some (r, n))
    (herr : r.error.isSome = true) :
    (send_message svc sid msg u t1 a t2 jl snaps).1 =
        .ok ⟨sid, a, r.response.getD "", "success"⟩ ∧
      lookupSession (send_message svc sid msg u t1 a t2 jl snaps).2 sid =
        some { s with
                 status := "ready", lastResponseId := n,
                 inputFileContent := msg,
                 messages := s.messages ++
                   [⟨u, "user", msg, t1, none⟩,
                    ⟨a, "agent", r.response.getD "", t2, some r.messageId⟩] } := by
  have hcond : ¬(s.status ≠ "ready") := by simp [hready]
  simp only [send_message, hs, if_neg hcond]
  simp only [hw]
  constructor
  · trivial
  · have hl := lookupSession_updateSession svc sid s
      { s with
          status := "ready", lastResponseId := n,
          inputFileContent := msg,
          messages := (s.messages ++ [⟨u, "user", msg, t1, none⟩]) ++
            [⟨a, "agent", r.response.getD "", t2, some r.messageId⟩] } hs
    simpa using hl

/-- Witness for C2's amended theorem at the concrete error snapshot. -/
theorem send_message_error_record_returned_as_success_witness :
    (send_message svcT "s1" "do it" "u1" "t1" "a1" "t2" jlT snapErr).1 =
        .ok ⟨"s1", "a1", (RespRecord.mk none (some "boom") (some 1)).response.getD "", "success"⟩ ∧
      lookupSession (send_message svcT "s1" "do it" "u1" "t1" "a1" "t2" jlT snapErr).2 "s1" =
        some { sessReady with
                 status := "ready", lastResponseId := 1,
                 inputFileContent := "do it",
                 messages := sessReady.messages ++
                   [⟨"u1", "user", "do it", "t1", none⟩,
                    ⟨"a1", "agent", (RespRecord.mk none (some "boom") (some 1)).response.getD "",
                      "t2", some (RespRecord.mk none (some "boom") (some 1)).messageId⟩] } :=
  send_message_error_record_returned_as_success svcT "s1" "do it" "u1" "t1" "a1" "t2"
    sessReady jlT snapErr (RespRecord.mk none (some "boom") (some 1)) 1
    (by decide) (by decide) (by decide) (by decide)

/-- C5: sending to a session whose status is not `ready` raises the not-ready
`ValueError` before any mutation: the service state — in particular the
session's input file and message history — is returned unchanged. -/
theorem send_message_not_ready_leaves_state_unchanged
    (svc : ServiceState) (sid msg u t1 a t2 : String) (s : Session)
    (jl : String → Option RespRecord) (snaps : List String)
    (hs : lookupSession svc sid = some s) (hnr : s.status ≠ "ready") :
    send_message svc sid msg u t1 a t2 jl snaps =
      (.error (.sessionNotReady
        ("Session " ++ sid ++ " is not ready (status: " ++ s.status ++ ")")), svc) := by
  simp only [send_message, hs, if_pos hnr]

/-- Witness for C5 on a `processing` session. -/
theorem send_message_not_ready_leaves_state_unchanged_witness :
    send_message svcProcessing "s1" "m" "u" "t1" "a" "t2" jlT snapT =
      (.error (.sessionNotReady
        ("Session " ++ "s1" ++ " is not ready (status: " ++
          ({ sessReady with status := "processing" } : Session).status ++ ")")),
       svcProcessing) :=
  send_message_not_ready_leaves_state_unchanged svcProcessing "s1" "m" "u" "t1" "a" "t2"
    { sessReady with status := "processing" } jlT snapT (by decide) (by decide)

/-- C6: a send on a ready session answered by one correctly sequenced reply
with a `response` field appends exactly one new agent message whose content is
that field's value, and the returned result carries the same content and the
new message's id. -/
theorem send_message_round_trip_appends_one_agent_message
    (svc : ServiceState) (sid msg u t1 a t2 : String) (s : Session)
    (jl : String → Option RespRecord) (snaps : List String)
    (r : RespRecord) (n : Int) (c : String)
    (hs : lookupSession svc sid = some s) (hready : s.status = "ready")
    (hw : waitForResponse jl snaps s.lastResponseId = some (r, n))
    (hresp : r.response = some c) :
    (send_message svc sid msg u t1 a t2 jl snaps).1 =
        .ok ⟨sid, a, c, "success"⟩ ∧
      lookupSession (send_message svc sid msg u t1 a t2 jl snaps).2 sid =
        some { s with
                 status := "ready", lastResponseId := n,
                 inputFileContent := msg,
                 messages := s.messages ++
                   [⟨u, "user", msg, t1, none⟩,
                    ⟨a, "agent", c, t2, some r.messageId⟩] } := by
  have hcond : ¬(s.status ≠ "ready") := by simp [hready]
  simp only [send_message, hs, if_neg hcond]
  simp only [hw, hresp]
  constructor
  · trivial
  · have hl := lookupSession_updateSession svc sid s
      { s with
          status := "ready", lastResponseId := n,
          inputFileContent := msg,
          messages := (s.messages ++ [⟨u, "user", msg, t1, none⟩]) ++
            [⟨a, "agent", c, t2, some r.messageId⟩] } hs
    simpa [hresp] using hl

/-- Witness for C6 at the concrete success snapshot. -/
theorem send_message_round_trip_appends_one_agent_message_witness :
    (send_message svcT "s1" "do it" "u1" "t1" "a1" "t2" jlT snapT).1 =
        .ok ⟨"s1", "a1", "Hello from agent", "success"⟩ ∧
      lookupSession (send_message svcT "s1" "do it" "u1" "t1" "a1" "t2" jlT snapT).2 "s1" =
        some { sessReady with
                 status := "ready", lastResponseId := 1,
                 inputFileContent := "do it",
                 messages := sessReady.messages ++
                   [⟨"u1", "user", "do it", "t1", none⟩,
                    ⟨"a1", "agent", "Hello from agent", "t2",
                      some (RespRecord.mk (some "Hello from agent") none (some 1)).messageId⟩] } :=
  send_message_round_trip_appends_one_agent_message svcT "s1" "do it" "u1" "t1" "a1" "t2"
    sessReady jlT snapT (RespRecord.mk (some "Hello from agent") none (some 1)) 1
    "Hello from agent" (by decide) (by decide) (by decide) (by decide)

/-- C10: when the response wait fails (timeout), the user message appended at
the start of `send_message` stays in the history with no agent message after
it, the input file keeps the sent text, and the session moves to `error`: the
append is not rolled back. -/
theorem send_message_failure_keeps_user_message
    (svc : ServiceState) (sid msg u t1 a t2 : String) (s : Session)
    (jl : String → Option RespRecord) (snaps : List String)
    (hs : lookupSession svc sid = some s) (hready : s.status = "ready")
    (hw : waitForResponse jl snaps s.lastResponseId = none) :
    (send_message svc sid msg u t1 a t2 jl snaps).1 =
        .error (.timeoutNoResponse "No response received within 300 seconds") ∧
      lookupSession (send_message svc sid msg u t1 a t2 jl snaps).2 sid =
        some { s with
                 status := "error",
                 inputFileContent := msg,
                 messages := s.messages ++ [⟨u, "user", msg, t1, none⟩] } := by
  have hcond : ¬(s.status ≠ "ready") := by simp [hready]
  simp only [send_message, hs, if_neg hcond]
  simp only [hw]
  constructor
  · trivial
  · have hl := lookupSession_updateSession svc sid s
      { s with
          status := "error",
          inputFileContent := msg,
          messages := s.messages ++ [⟨u, "user", msg, t1, none⟩] } hs
    simpa using hl

/-- Witness for C10 with no snapshot ever matching (empty poll sequence). -/
theorem send_message_failure_keeps_user_message_witness :
    (send_message svcT "s1" "do it" "u1" "t1" "a1" "t2" jlT []).1 =
        .error (.timeoutNoResponse "No response received within 300 seconds") ∧
      lookupSession (send_message svcT "s1" "do it" "u1" "t1" "a1" "t2" jlT []).2 "s1" =
        some { sessReady with
                 status := "error",
                 inputFileContent := "do it",
                 messages := sessReady.messages ++ [⟨"u1", "user", "do it", "t1", none⟩] } :=
  send_message_failure_keeps_user_message svcT "s1" "do it" "u1" "t1" "a1" "t2"
    sessReady jlT [] (by decide) (by decide) (by decide)

/-- C3: when the readiness handshake fails (deadline expired or process exit
detected), `create_session` raises and the new session is never inserted into
the registry, so it is not visible via `get_session` or `list_sessions`. -/
theorem create_session_failure_not_registered
    (svc : ServiceState) (ws : Option String) (sid : String)
    (proc : AsyncioProcess) (so se : String) (obs : List PollObs) (m : String)
    (hw : waitForReady sid so se obs = .error m)
    (hfresh : lookupSession svc sid = none) :
    (create_session svc ws sid proc so se obs).1 = .error m ∧
      (create_session svc ws sid proc so se obs).2 = svc ∧
      get_session (create_session svc ws sid proc so se obs).2 sid = none ∧
      list_sessions (create_session svc ws sid proc so se obs).2 =
        list_sessions svc := by
  simp only [create_session, hw]
  refine ⟨trivial, trivial, ?_, trivial⟩
  exact hfresh

/-- Witness for C3: the process exits on the first periodic check and the
registry (initially empty) stays empty. -/
theorem create_session_failure_not_registered_witness :
    (create_session ⟨[]⟩ none "s9" ⟨7, some 1⟩ "out" "err"
        [⟨true, some 1, none⟩]).1 =
        .error ("Session " ++ "s9" ++ " failed to become ready within 300 seconds") ∧
      (create_session ⟨[]⟩ none "s9" ⟨7, some 1⟩ "out" "err"
        [⟨true, some 1, none⟩]).2 = ⟨[]⟩ ∧
      get_session (create_session ⟨[]⟩ none "s9" ⟨7, some 1⟩ "out" "err"
        [⟨true, some 1, none⟩]).2 "s9" = none ∧
      list_sessions (create_session ⟨[]⟩ none "s9" ⟨7, some 1⟩ "out" "err"
        [⟨true, some 1, none⟩]).2 = list_sessions ⟨[]⟩ :=
  create_session_failure_not_registered ⟨[]⟩ none "s9" ⟨7, some 1⟩ "out" "err"
    [⟨true, some 1, none⟩]
    ("Session " ++ "s9" ++ " failed to become ready within 300 seconds")
    (by rfl) (by decide)

/-- C4 (evaluating the code at the failing input): `stop_session` on a
registered session whose `cli_process` is the `asyncio.subprocess.Process`
stored by `create_session` reaches `session.cli_process.poll()`, which raises
`AttributeError`; the blanket `except` returns `False` and the session is
still in the registry afterwards (with only the `STOP_SESSION` input-file
write applied) — the documented behaviour (remove and return `True`) is never
reached. -/
theorem stop_session_returns_false_and_keeps_session :
    stop_session svcT "s1" =
      (false, ⟨[("s1", { sessReady with inputFileContent := "STOP_SESSION" })]⟩) ∧
      get_session (stop_session svcT "s1").2 "s1" =
        some { sessReady with inputFileContent := "STOP_SESSION" } ∧
      stop_session ⟨[]⟩ "s1" = (false, ⟨[]⟩) := by decide

/-- C7 (counterexample): with the process already exited (`returncode` set),
a poll cycle that is not a periodic log cycle does not abort — it can even
succeed on a readiness marker — and when the exit is detected on a log cycle
the raised error is the fixed timeout message, identical for different
captured stdout/stderr, so the captured output is not part of the error. -/
theorem ready_wait_exit_counterexample :
    waitForReady "s" "OUT_A" "ERR_A" [⟨false, some 1, some "READY"⟩] = .ok () ∧
      waitForReady "s" "OUT_A" "ERR_A" [⟨true, some 1, none⟩] =
        .error ("Session " ++ "s" ++ " failed to become ready within 300 seconds") ∧
      waitForReady "s" "OUT_B" "ERR_B" [⟨true, some 1, none⟩] =
        .error ("Session " ++ "s" ++ " failed to become ready within 300 seconds") :=
  ⟨rfl, rfl, rfl⟩

/-- C7 (amended): if the process has exited, the readiness wait aborts at the
next periodic (log-cycle) process check — not at every 2-second poll cycle —
without waiting out the rest of the deadline (the observations after the
aborting cycle are arbitrary), raising a timeout error whose message is fixed;
the captured stdout/stderr are logged only. -/
theorem ready_wait_aborts_on_next_log_cycle
    (sid so se : String) (pre post : List PollObs) (o : PollObs)
    (hpre : ∀ p ∈ pre, obsAborts p = false ∧ obsReady p = false)
    (ho : obsAborts o = true) :
    waitForReady sid so se (pre ++ o :: post) =
      .error ("Session " ++ sid ++ " failed to become ready within 300 seconds") := by
  simp only [obsAborts] at ho
  induction pre with
  | nil =>
    simp only [List.nil_append, waitForReady, ho]
    rfl
  | cons p pre' ih =>
    rcases hpre p (by simp) with ⟨hp1, hp2⟩
    simp only [obsAborts] at hp1
    simp only [List.cons_append, waitForReady, hp1]
    cases hc : p.content with
    | none =>
      simp only []
      exact ih (fun q hq => hpre q (by simp [hq]))
    | some c =>
      have hr : readyCheck c = false := by
        simpa [obsReady, hc] using hp2
      simp only [hr]
      simp only [Bool.false_eq_true, if_false]
      exact ih (fun q hq => hpre q (by simp [hq]))

/-- Witness for C7's amended theorem: exit already visible on a non-log poll
cycle, detected on the following log cycle, with further observations left. -/
theorem ready_wait_aborts_on_next_log_cycle_witness :
    waitForReady "s" "out" "err"
        ([⟨false, some 1, none⟩] ++ ⟨true, some 1, none⟩ ::
          [⟨false, none, some "READY"⟩]) =
      .error ("Session " ++ "s" ++ " failed to become ready within 300 seconds") :=
  ready_wait_aborts_on_next_log_cycle "s" "out" "err"
    [⟨false, some 1, none⟩] [⟨false, none, some "READY"⟩] ⟨true, some 1, none⟩
    (by decide) (by decide)

/-- C8 (counterexample): a send to an unknown session id and a send to a known
session in `processing` state both surface as HTTP 404 — the route maps every
`ValueError` to 404, so the two conditions share one client-visible code. -/
theorem route_not_found_and_not_ready_both_404 :
    send_message_route svcProcessing "nope" "m" "u" "t1" "a" "t2" jlT snapT = 404 ∧
      send_message_route svcProcessing "s1" "m" "u" "t1" "a" "t2" jlT snapT = 404 := by
  constructor
  · rfl
  · rfl

/-- C8 (amended): the route does not distinguish the two failures: both the
unknown-id `ValueError` and the not-ready `ValueError` are caught by the same
`except ValueError` clause and mapped to status code 404; they differ only in
the detail message. -/
theorem route_maps_value_errors_to_404
    (svc : ServiceState) (sidA sidB msg u t1 a t2 : String)
    (jl : String → Option RespRecord) (snaps : List String) (s : Session)
    (hA : lookupSession svc sidA = none)
    (hB : lookupSession svc sidB = some s) (hnr : s.status ≠ "ready") :
    send_message_route svc sidA msg u t1 a t2 jl snaps = 404 ∧
      send_message_route svc sidB msg u t1 a t2 jl snaps = 404 := by
  constructor
  · simp [send_message_route, send_message, hA, SendError.pyClass]
  · simp [send_message_route, send_message, hB, if_pos hnr, SendError.pyClass]

/-- Witness for C8's amended theorem on the concrete registry. -/
theorem route_maps_value_errors_to_404_witness :
    send_message_route svcProcessing "nope" "m" "u" "t1" "a" "t2" jlT snapT = 404 ∧
      send_message_route svcProcessing "s1" "m" "u" "t1" "a" "t2" jlT snapT = 404 :=
  route_maps_value_errors_to_404 svcProcessing "nope" "s1" "m" "u" "t1" "a" "t2"
    jlT snapT { sessReady with status := "processing" }
    (by decide) (by decide) (by decide)

/-- C9 (counterexample): an output with exactly two extracted-comment marker
lines and one summary line claiming a count of 2 can still parse to a single
placeholder comment, because both extracted texts are 10 characters or
shorter and are dropped by the length filter. -/
theorem parse_short_markers_counterexample :
    ((pySplit rabbitShortOutput "\n").filter
        (fun l => pyIn "📝 Extracted:" l)).length = 2 ∧
      ((pySplit rabbitShortOutput "\n").filter
        (fun l => pyIn "📊 Review completed with" l && pyIn "comments" l)).length = 1 ∧
      parse_coderabbit_output rabbitShortOutput "T" =
        [⟨placeholderText, "CodeRabbit", "Overall", "Workspace", "T"⟩] := by
  decide

/-- C9 (amended): for every review-CLI output, the parsed result is exactly
one comment per marker line whose extracted text, after removing `...` and
stripping, is non-empty and longer than 10 characters, in line order —
independent of any summary line, which is used only for logging and never to
filter or truncate the comment list — and exactly the single placeholder
comment when no line qualifies, in particular for every output with zero
marker lines. -/
theorem parse_review_output_characterized (output ts : String) :
    parse_coderabbit_output output ts = specParseReview output ts := by
  simp only [parse_coderabbit_output, specParseReview,
    foldl_parseRabbitLine ts (pySplit output "\n") [], List.nil_append]

end AgentLoop
